import Mathlib

/-!
Shallow embedding of the DICOM command-struct generator
(`ul/scripts/generate_command_structs.py`): the table normalizer
(`df_for_table`), the group merger (`get_merged_df`), the field classifier
(`add_field_to_struct` / `add_field_to_dataset`) and the code synthesizer
(`gen` / `write_rust_file`).  Pandas dataframes are modelled as record sets
(lists of parameter-keyed rows with named columns); fallible Python code
(raised exceptions) is modelled with `Except String`.  The HTTP fetch and
the BeautifulSoup DOM scan are external collaborators; a table enters the
model as its extracted header texts and row-cell texts.
-/

set_option maxRecDepth 100000

namespace DicomGen

/-- The apostrophe character, used to build the Rust lifetime token. -/
def aposC : Char := Char.ofNat 39

/-- ASCII lower-casing of one character (Python `str.lower` on the ASCII
parameter names appearing in the tables). -/
def asciiLower (c : Char) : Char :=
  if 65 ≤ c.toNat ∧ c.toNat ≤ 90 then Char.ofNat (c.toNat + 32) else c

/-- ASCII upper-casing of one character (Python `str.upper`). -/
def asciiUpper (c : Char) : Char :=
  if 97 ≤ c.toNat ∧ c.toNat ≤ 122 then Char.ofNat (c.toNat - 32) else c

/-- Python `str.lower` (ASCII fragment). -/
def pyLower (s : String) : String := ⟨s.data.map asciiLower⟩

/-- Python `str.upper` (ASCII fragment). -/
def pyUpper (s : String) : String := ⟨s.data.map asciiUpper⟩

/-- Python `str.startswith`. -/
def pyStartsWith (s pre : String) : Bool := pre.data.isPrefixOf s.data

/-- One step list of Python `str.replace`: left-to-right, non-overlapping
replacement of every occurrence of `pat` by `repl`.  The fuel argument is
the length of the subject string; every recursive call consumes at least
one character, so the fuel never runs out on the initial call.  All
patterns used by the generator are non-empty. -/
def pyReplaceData : Nat → List Char → List Char → List Char → List Char
  | 0, s, _, _ => s
  | fuel + 1, s, pat, repl =>
    match s with
    | [] => []
    | c :: rest =>
      if pat ≠ [] ∧ pat.isPrefixOf (c :: rest) then
        repl ++ pyReplaceData fuel ((c :: rest).drop pat.length) pat repl
      else
        c :: pyReplaceData fuel rest pat repl

/-- Python `str.replace`. -/
def pyReplace (s pat repl : String) : String :=
  ⟨pyReplaceData s.data.length s.data pat.data repl.data⟩

/-- Python substring test (`pat in s`) on character lists. -/
def containsSub (s pat : List Char) : Bool :=
  match s with
  | [] => pat.isEmpty
  | _ :: rest => pat.isPrefixOf s || containsSub rest pat

/-- Python substring test on strings. -/
def containsSubStr (s pat : String) : Bool := containsSub s.data pat.data

/-- Python `sep.join(xs)`. -/
def pyJoin (sep : String) : List String → String
  | [] => ""
  | [x] => x
  | x :: rest => x ++ sep ++ pyJoin sep rest

/-- Python `str.splitlines(keepends=True)`: split into segments, each
segment keeping its terminating newline. -/
def splitLinesKeep : List Char → List (List Char)
  | [] => []
  | c :: rest =>
    if c = '\n' then ['\n'] :: splitLinesKeep rest
    else
      match splitLinesKeep rest with
      | [] => [[c]]
      | l :: ls => (c :: l) :: ls

/-- ASCII whitespace, as stripped by Python `str.strip`. -/
def isPyWs (c : Char) : Bool :=
  c = ' ' ∨ c = '\t' ∨ c = '\n' ∨ c = '\r' ∨ c = Char.ofNat 11 ∨ c = Char.ofNat 12

/-- Python `textwrap.indent(text, pre)`: prepend `pre` to every line that
contains a non-whitespace character. -/
def pyIndent (text pre : String) : String :=
  ⟨(splitLinesKeep text.data).foldr
    (fun l acc => (if l.all isPyWs then l else pre.data ++ l) ++ acc) []⟩

/-! ## Table extraction boundary and the table normalizer (`df_for_table`) -/

/-- One extracted specification table: the id attribute of its defining
element, the emphasized header texts (one per `th`/`strong`), and the data
cell texts (one inner list per `tr`, already stripped).  This is the
output of the external DOM scan (`get_tables`). -/
structure HtmlTable where
  id : String
  headers : List String
  rows : List (List String)
  deriving DecidableEq, Repr

/-- A normalized record set: the attribute column labels remaining after
the first column is renamed to the canonical `param` key and made the
index, and the surviving rows as (parameter key, attribute values). -/
structure Df where
  cols : List String
  rows : List (String × List String)
  deriving DecidableEq, Repr

/-- `find_table`: locate a table by its id attribute among the extracted
tables. -/
def find_table (table_list : List HtmlTable) (table_id : String) : Option HtmlTable :=
  table_list.find? (fun t => t.id = table_id)

/-- Width of a data block the way `pd.DataFrame` sees a list of lists:
the widest row; shorter rows are padded with missing values (NaN). -/
def dataWidth (data : List (List String)) : Nat :=
  data.foldl (fun m r => max m r.length) 0

/-- `df_for_table`: convert one extracted table to a record set.

Mirrors the source line by line: if no emphasized header cells were found,
the first data row becomes the header and the rest the data; otherwise the
header texts are the columns and every row is data.  `pd.DataFrame` errors
when the data block's width differs from the number of column labels
(shorter rows are padded with NaN at the end).  The first column is then
renamed to `param` and made the index, and `dropna()` drops every row with
a missing (NaN) cell in the remaining columns; because padding is at the
end of a row, a row survives exactly when it already carried all `n`
cells.  (`dropna` never inspects the index column itself; with at least
one attribute column a fully missing row is dropped anyway, and
degenerate one-column tables do not occur in the data.)  Blank cells are
ordinary strings, not NaN, and are never dropped.

`headerSplit` is the header handling at the top of the function. -/
def headerSplit (t : HtmlTable) : Except String (List String × List (List String)) :=
  if t.headers.isEmpty then
    match t.rows with
    | [] => Except.error "IndexError: list index out of range"
    | h :: rest => Except.ok (h, rest)
  else Except.ok (t.headers, t.rows)

/-- The fate of one data row of an `n`-column frame under `dropna()`:
padding with NaN happens at the end of a short row, so a row survives
exactly when it already carried all `n` cells, and it then splits into
the `param` index entry and the attribute values. -/
def keepRow (n : Nat) : List String → Option (String × List String)
  | [] => none
  | p :: attrs => if (p :: attrs).length = n then some (p, attrs) else none

/-- `pd.DataFrame` construction, the `param` rename, `set_index` and
`dropna()` for a given header/data split. -/
def build_df (hdrs : List String) (data : List (List String)) : Except String Df :=
  if data.length > 0 ∧ dataWidth data ≠ hdrs.length then
    Except.error "ValueError: shape of passed values does not match the given columns"
  else if hdrs.length = 0 then
    Except.error "ValueError: length mismatch when renaming columns"
  else
    Except.ok { cols := hdrs.tail, rows := data.filterMap (keepRow hdrs.length) }

def df_for_table (t : HtmlTable) : Except String Df := do
  let (hdrs, data) ← headerSplit t
  build_df hdrs data

/-! ## The group merger (`get_merged_df`) -/

/-- Load one table id into a record set.  Looking up a missing id returns
`None` in the source, and `df_for_table(None)` then fails with an
`AttributeError`; both fatal paths are errors here. -/
def load_df (table_list : List HtmlTable) (table_id : String) : Except String Df :=
  match find_table table_list table_id with
  | none => Except.error ("AttributeError: table " ++ table_id ++ " not found")
  | some t => df_for_table t

/-- Union of the column label lists in order of first appearance, the way
`pd.concat` aligns frames with differing columns. -/
def unionCols : List (List String) → List String
  | [] => []
  | cs :: rest => (unionCols rest).foldl (fun acc c => if c ∈ acc then acc else acc ++ [c]) cs

/-- Value of a named column in a row, `none` when the frame lacks the
column (or, for `pd.concat` alignment, the NaN filled in for it). -/
def colValue {α : Type} : List String → List α → String → Option α
  | [], _, _ => none
  | _ :: _, [], _ => none
  | c :: cs, v :: vs, q => if c = q then some v else colValue cs vs q

/-- Keep the first row for every key produced by `key`, dropping later
duplicates (`drop_duplicates` semantics, `keep="first"`). -/
def dedupByKey (key : α → β) [DecidableEq β] : List α → List α :=
  go []
where
  go (seen : List β) : List α → List α
    | [] => []
    | x :: xs => if key x ∈ seen then go seen xs else x :: go (key x :: seen) xs

/-- Concatenate, deduplicate and clean the tag-definition record sets:
`pd.concat(tag_defs).drop_duplicates()` then `.dropna()`.  `concat` takes
the union of the columns, filling missing ones with NaN; `drop_duplicates`
compares the value columns (the index is not a column); `dropna` then
drops every row still missing a column value. -/
def load_tag_def (table_list : List HtmlTable) (tag_def_ids : List String) :
    Except String Df := do
  let tag_defs ← tag_def_ids.mapM (load_df table_list)
  if tag_defs.isEmpty then
    Except.error "ValueError: No objects to concatenate"
  else
    let cols := unionCols (tag_defs.map (·.cols))
    let all_rows := tag_defs.foldr
      (fun d acc => d.rows.map (fun pr => (pr.1, cols.map (colValue d.cols pr.2))) ++ acc) []
    let dedup := dedupByKey (fun pr => pr.2) all_rows
    let clean := dedup.filterMap (fun pr =>
      match pr.2.mapM (fun v => v) with
      | some vs => some (pr.1, vs)
      | none => none)
    Except.ok { cols := cols, rows := clean }

/-- One row of a merged message-group frame after `reset_index`: the
parameter key, the overview attribute values (always present), and the
tag-definition attribute values (missing when the overview parameter had
no tag-definition match in the left join). -/
structure MergedRow where
  param : String
  ovVals : List String
  tagVals : List (Option String)
  deriving DecidableEq, Repr

/-- The merged message-group frame. -/
structure Merged where
  ovCols : List String
  tagCols : List String
  rows : List MergedRow
  deriving DecidableEq, Repr

/-- The left-join expansion of one overview row: one output row per
matching tag-definition row (in the right frame's order), or a single
row with NaN tag values when no tag-definition key matches. -/
def joinRow (tag_def : Df) (pr : String × List String) : List MergedRow :=
  if (tag_def.rows.filter (fun tr => tr.1 = pr.1)).isEmpty then
    [⟨pr.1, pr.2, tag_def.cols.map (fun _ => none)⟩]
  else
    (tag_def.rows.filter (fun tr => tr.1 = pr.1)).map
      (fun tr => ⟨pr.1, pr.2, tr.2.map some⟩)

/-- `overview.join(tag_def)` followed by
`.reset_index().drop_duplicates(subset=["param"])`.  Pandas `join` is a
left join on the index: every overview row is kept; a row with no
matching tag-definition key receives NaN for every tag column; a key with
several matches is repeated per match, in the right frame's order.
Overlapping column names are a `ValueError`.  The final deduplication
keeps the first row of each parameter key. -/
def join_dfs (overview tag_def : Df) : Except String Merged :=
  if (overview.cols.filter (fun c => c ∈ tag_def.cols)).isEmpty then
    Except.ok
      { ovCols := overview.cols
        tagCols := tag_def.cols
        rows := dedupByKey (fun r => r.param)
          (overview.rows.foldr (fun pr acc => joinRow tag_def pr ++ acc) []) }
  else
    Except.error "ValueError: columns overlap but no suffix specified"

/-- `get_merged_df`: merge the tables describing one message group. -/
def get_merged_df (table_list : List HtmlTable) (overview_id : String)
    (tag_def_ids : List String) : Except String Merged := do
  let overview ← load_df table_list overview_id
  let tag_def ← load_tag_def table_list tag_def_ids
  join_dfs overview tag_def

/-! ## Static configuration -/

/-- Label of the column holding the parameter description. -/
def DESCRIPTION_COLUMN : String := "Description of Field"

/-- Label of the request requirement-level column. -/
def REQ_COLUMN : String := "Req/Ind"

/-- Label of the response requirement-level column. -/
def RESP_COLUMN : String := "Rsp/Conf"

/-- Label of the cancel requirement-level column. -/
def CANCEL_COLUMN : String := "CnclReq/CnclInd"

/-- Label of the value-representation column. -/
def VR_COLUMN : String := "VR"

/-- Suffix naming request structs. -/
def REQ_SUFFIX : String := "Rq"

/-- Suffix naming response structs. -/
def RESP_SUFFIX : String := "Rsp"

/-- Suffix naming cancel structs. -/
def CANCEL_SUFFIX : String := "Cncl"

/-- The Rust lifetime token `<'a>` (the apostrophe built from its code
point). -/
def lifetimeTok : String := "<" ++ String.singleton aposC ++ "a>"

/-- A borrowed Rust string slice type, `&'a str`. -/
def strSliceTy : String := "&" ++ String.singleton aposC ++ "a str"

/-- Mapping from VR codes to Rust types (`VR_MAP`). -/
def VR_MAP : List (String × String) :=
  [("US", "u16"), ("UI", strSliceTy), ("AE", strSliceTy)]

/-- `vr not in VR_MAP` / `VR_MAP.get(vr)`: the cell is `none` when the
join left it NaN, which is likewise absent from the map. -/
def vrLookup : Option String → Option String
  | none => none
  | some v => (VR_MAP.find? (fun p => p.1 = v)).map (·.2)

/-- Rendering of a cell inside a Python f-string: NaN prints as `nan`. -/
def renderCell : Option String → String
  | none => "nan"
  | some v => v

/-- The message groups and their overview plus tag-definition table ids
(`table_groups`). -/
def table_groups : List (String × String × List String) :=
  [("C_Store", "table_9.1-1", ["table_9.3-1", "table_9.3-2"]),
   ("C_Find", "table_9.1-2", ["table_9.3-3", "table_9.3-4", "table_9.3-5"]),
   ("C_Get", "table_9.1-3", ["table_9.3-6", "table_9.3-7", "table_9.3-8"]),
   ("C_Move", "table_9.1-4", ["table_9.3-9", "table_9.3-10", "table_9.3-11"]),
   ("C_Echo", "table_9.1-5", ["table_9.3-12", "table_9.3-13"])]

/-! ## Field classifier (`add_field_to_struct` / `add_field_to_dataset`) -/

/-- Conversion of a parameter name to a Rust field name:
`param.lower().replace(" ", "_").replace("-", "_")`. -/
def fieldNameOf (param : String) : String :=
  pyReplace (pyReplace (pyLower param) " " "_") "-" "_"

/-- The fixed-default priority struct entry (three adjacent Python string
literals concatenated). -/
def priorityFieldText : String :=
  "/// Priority for the request\n#[builder(default = Priority::Medium)]\npriority: Priority"

/-- The payload-presence element with value `0x0001`. -/
def deDataSet0001 : String :=
  "DE::new(tags::COMMAND_DATA_SET_TYPE,VR::US, value!(0x0001))"

/-- The payload-presence element with value `0x0101`. -/
def deDataSet0101 : String :=
  "DE::new(tags::COMMAND_DATA_SET_TYPE,VR::US, value!(0x0101))"

/-- The fixed error text of the unknown-VR abort.  The source interpolates
the whole pandas row after the code; the row rendering is abstracted to
the rendering supplied by the caller. -/
def vrErrorMsg (vr : Option String) (row : String) : String :=
  "No type found for VR " ++ renderCell vr ++ ": row " ++ row

/-- `add_field_to_struct`: add one parameter to the struct definition.

`need` and `vr` are the raw cells (`none` = NaN).  The sentinel
parameters and a `-` level produce nothing; `Priority` always gets the
fixed-default entry; an unmapped VR raises; otherwise `need[0]` decides
between the bare type and the `Option`-wrapped type (`need[0]` raises on
an empty or NaN cell, as Python indexing does). -/
def add_field_to_struct (struct : List String) (param : String)
    (need vr : Option String) (description row : String) :
    Except String (List String) :=
  let field_name := fieldNameOf param
  if param = "Data Set" ∨ param = "Identifier" then
    Except.ok struct
  else if need = some "-" then
    Except.ok struct
  else if param = "Priority" then
    Except.ok (struct ++ [priorityFieldText])
  else
    match vrLookup vr with
    | none => Except.error (vrErrorMsg vr row)
    | some value_type =>
      match need with
      | none => Except.error "TypeError: nan is not subscriptable"
      | some lvl =>
        match lvl.data with
        | [] => Except.error "IndexError: string index out of range"
        | c :: _ =>
          let type_ := if c = 'M' then value_type else "Option<" ++ value_type ++ ">"
          Except.ok (struct ++ ["/// " ++ description, "pub " ++ field_name ++ ": " ++ type_])

/-- `add_field_to_dataset`: add one parameter to the dataset recipe and
collect the marker-trait tags.  `vr` is the enclosing loop's cell, which
the source's f-strings close over.  For the sentinel parameters
`startswith("M")` selects the `0x0001` element and the required tag;
otherwise `need[0]` (raising on an empty or NaN cell) selects either the
conditional pair of tags or the forbidden tag, both with the `0x0101`
element.  Every other parameter appends its self-serializing element,
with a `u16` cast for the priority field, and never touches the tags. -/
def add_field_to_dataset (impl markers : List String) (param : String)
    (need vr : Option String) : Except String (List String × List String) :=
  if param = "Data Set" ∨ param = "Identifier" then
    match need with
    | none => Except.error "AttributeError: nan has no attribute startswith"
    | some lvl =>
      if pyStartsWith lvl "M" then
        Except.ok (impl ++ [deDataSet0001], markers ++ ["DatasetRequiredCommand"])
      else
        match lvl.data with
        | [] => Except.error "IndexError: string index out of range"
        | c :: _ =>
          if c = 'U' ∨ c = 'C' then
            Except.ok (impl ++ [deDataSet0101],
              markers ++ ["DatasetConditionalCommand", "DatasetRequiredCommand"])
          else
            Except.ok (impl ++ [deDataSet0101], markers ++ ["DatasetForbiddenCommand"])
  else if need = some "-" then
    Except.ok (impl, markers)
  else if fieldNameOf param = "priority" then
    Except.ok (impl ++ ["DE::new(tags::" ++ pyUpper (fieldNameOf param) ++ ", VR::" ++
      renderCell vr ++ ", value!(self." ++ fieldNameOf param ++ " as u16))"], markers)
  else
    Except.ok (impl ++ ["DE::new(tags::" ++ pyUpper (fieldNameOf param) ++ ", VR::" ++
      renderCell vr ++ ", value!(self." ++ fieldNameOf param ++ "))"], markers)

/-! ## Code synthesizer (`gen`) -/

/-- The column labels of a merged frame after `reset_index`: the `param`
key column followed by the overview and tag-definition columns. -/
def mergedColumns (m : Merged) : List String :=
  "param" :: m.ovCols ++ m.tagCols

/-- `row.get(c)` on one merged row: `none` when the frame has no such
column, `some none` when the cell is NaN. -/
def rowGet (m : Merged) (r : MergedRow) (c : String) : Option (Option String) :=
  colValue (mergedColumns m) (some r.param :: (r.ovVals.map some ++ r.tagVals)) c

/-- The special renaming of sub-operation parameters applied at the top
of the row loop. -/
def sub_param (param : String) : String :=
  if containsSubStr param "Sub-operations" then
    pyReplace param "Sub-operations" "Suboperations"
  else param

/-- `row.get(DESCRIPTION_COLUMN, param).replace("\n\r", " ")`: the
description cell when the column exists (an `AttributeError` when it is
NaN), else the parameter name; either way with the newline fix-up. -/
def getDescription (m : Merged) (r : MergedRow) (param : String) : Except String String :=
  match rowGet m r DESCRIPTION_COLUMN with
  | none => Except.ok (pyReplace param "\n\r" " ")
  | some none => Except.error "AttributeError: nan has no attribute replace"
  | some (some s) => Except.ok (pyReplace s "\n\r" " ")

/-- The row loop of `gen`: thread the struct entries, the recipe elements
and the marker tags through every merged row, failing fast on the first
raised error. -/
def process_rows (m : Merged) (column_name : String) :
    List MergedRow → List String → List String → List String →
    Except String (List String × List String × List String)
  | [], struct, impl, markers => Except.ok (struct, impl, markers)
  | r :: rest, struct, impl, markers => do
    let param := sub_param r.param
    match rowGet m r column_name with
    | none => Except.error (column_name ++ " not present for param " ++ param)
    | some need =>
      match rowGet m r VR_COLUMN with
      | none => Except.error (VR_COLUMN ++ " not present for param")
      | some vr => do
        let description ← getDescription m r param
        let (impl2, markers2) ← add_field_to_dataset impl markers param need vr
        let struct2 ← add_field_to_struct struct param need vr description param
        process_rows m column_name rest struct2 impl2 markers2

/-- The command-field wire element hard-coded first in the dataset
template. -/
def commandFieldDe : String :=
  "DE::new(tags::COMMAND_FIELD, VR::US, value!(self.command_field()))"

/-- Everything `gen` produces for one (group, role) pair: the names, the
collected struct entries, recipe elements and marker tags, the ordered
wire-element constructions of the dataset body (the hard-coded
command-field element followed by the per-row elements), and the emitted
text before and after the cancel-role lifetime erasure. -/
structure RoleOutput where
  struct_name : String
  command_field_name : String
  struct : List String
  impl : List String
  markers : List String
  recipe : List String
  raw_text : String
  text : String
  deriving DecidableEq, Repr

/-- The struct definition text. -/
def structText (struct_name : String) (struct : List String) : String :=
  "#[derive(Builder, Debug)]\npub struct " ++ struct_name ++ lifetimeTok ++
    " \x7b\n" ++ pyIndent (pyJoin ",\n" struct) "    " ++ "\n\x7d"

/-- The `Command` implementation text. -/
def implText (struct_name command_field_name : String) (impl : List String) : String :=
  "\nimpl" ++ lifetimeTok ++ " Command for " ++ struct_name ++ lifetimeTok ++
    " \x7b\n    fn command_field(&self) -> u16 \x7b\n        CommandField::" ++
    command_field_name ++ " as u16\n    \x7d\n\n    fn dataset(&self) -> InMemDicomObject \x7b\n        InMemDicomObject::from_element_iter(vec![\n            " ++
    commandFieldDe ++ ",\n" ++ pyIndent (pyJoin ",\n" impl) "            " ++
    "\n        ])\n    \x7d\n\x7d"

/-- The marker-trait implementations text. -/
def markerText (struct_name : String) (markers : List String) : String :=
  pyJoin "\n" (markers.map (fun t =>
    "impl" ++ lifetimeTok ++ " " ++ t ++ " for " ++ struct_name ++ lifetimeTok ++ " \x7b\x7d"))

/-- The body of `gen`'s role loop for one (group, role) pair that the
merged frame declares: derive the names (collapsing the cancel role to
the shared `C_CANCEL_RQ` command name), run the row loop, default the
marker tags to `DatasetForbiddenCommand` when no sentinel parameter set
them, assemble the three text blocks, and for the cancel role erase every
lifetime token from the emitted text. -/
def gen_role (merged : Merged) (column_name sfx pre : String) :
    Except String RoleOutput := do
  let struct_name := pyReplace pre "_" "" ++ (if sfx = "Cncl" then "Cncl" else sfx)
  let command_field_name :=
    if sfx = "Cncl" then "C_CANCEL_RQ" else pyUpper pre ++ "_" ++ pyUpper sfx
  let (struct, impl, markers0) ← process_rows merged column_name merged.rows [] [] []
  let markers := if markers0.isEmpty then ["DatasetForbiddenCommand"] else markers0
  let struct_text := structText struct_name struct
  let impl_text := implText struct_name command_field_name impl
  let marker_text := markerText struct_name markers
  let raw := struct_text ++ "\n" ++ impl_text ++ "\n\n" ++ marker_text ++ "\n\n"
  Except.ok
    { struct_name := struct_name
      command_field_name := command_field_name
      struct := struct
      impl := impl
      markers := markers
      recipe := commandFieldDe :: impl
      raw_text := raw
      text := if sfx = "Cncl" then pyReplace raw lifetimeTok "" else raw }

/-- The (role column, struct suffix) pairs iterated per group. -/
def roleColumns : List (String × String) :=
  [(REQ_COLUMN, REQ_SUFFIX), (RESP_COLUMN, RESP_SUFFIX), (CANCEL_COLUMN, CANCEL_SUFFIX)]

/-- One iteration of `gen`'s group loop: merge the group's tables, then
emit text for every role whose column the merged frame declares, skipping
the others. -/
def gen_group (table_list : List HtmlTable) (pre overview_id : String)
    (tag_def_ids : List String) : Except String String := do
  let merged ← get_merged_df table_list overview_id tag_def_ids
  roleColumns.foldlM (fun acc cs =>
    if (mergedColumns merged).contains cs.1 then do
      let out ← gen_role merged cs.1 cs.2 pre
      pure (acc ++ out.text)
    else pure acc) ""

/-- The fixed import/use block prepended to the generated artifact. -/
def genHeader : String :=
  "\nuse dicom_core::\x7bDataElement as DE, VR, dicom_value as value\x7d;\nuse dicom_object::\x7bInMemDicomObject\x7d;\nuse bon::Builder;\nuse dicom_dictionary_std::tags;\nuse crate::pdu::commands::\x7b\n    CommandField, Priority, Command, DatasetRequiredCommand,\n    DatasetConditionalCommand, DatasetForbiddenCommand\n\x7d;\n\n"

/-- `gen`: the whole compilation over the configured message groups.  The
document fetch is the external collaborator, so the extracted table list
is the input. -/
def gen (table_list : List HtmlTable) : Except String String := do
  let body ← table_groups.foldlM (fun acc g => do
    let part ← gen_group table_list g.1 g.2.1 g.2.2
    pure (acc ++ part)) ""
  pure (genHeader ++ body)

/-- `write_rust_file`: the content of the artifact written on success. -/
def write_rust_file (content : String) : String :=
  "// Auto-generated DICOM command structs\n" ++ content

/-- The `__main__` entry: run `gen` and only then write the artifact; a
raised error propagates and nothing is written. -/
def main_output (table_list : List HtmlTable) : Except String String :=
  (gen table_list).map write_rust_file

/-! ## Helper lemmas -/

theorem isPrefixOf_append_self (p b : List Char) : p.isPrefixOf (p ++ b) = true := by
  induction p with
  | nil => cases b <;> rfl
  | cons c p' ih => simp [List.isPrefixOf, ih]

theorem containsSub_of_leading {s p : List Char} (h : p.isPrefixOf s = true) :
    containsSub s p = true := by
  cases s with
  | nil =>
    cases p with
    | nil => rfl
    | cons c p' => simp [List.isPrefixOf] at h
  | cons c rest => simp [containsSub, h]

theorem containsSub_append_left (a : List Char) {s p : List Char}
    (h : containsSub s p = true) : containsSub (a ++ s) p = true := by
  induction a with
  | nil => simpa using h
  | cons c a' ih => simp [containsSub, ih]

theorem string_data_append (a b : String) : (a ++ b).data = a.data ++ b.data := rfl

/-! ## Shared example inputs -/

/-- An overview-style table exercising the row-quality policy: an empty
row (the `th` header row yields no `td` cells), a complete row, a row
with a blank cell, and a short row missing its last cell. -/
def exTableRows : HtmlTable :=
  { id := "ov"
    headers := ["Parameter", "Req/Ind"]
    rows := [[], ["P", "M"], ["Blank", ""], ["Short"]] }

/-- A tag-definition table whose only parameter is `Q`, so that the
overview parameter `P` of `exTableRows` has no tag-definition match. -/
def exTableTags : HtmlTable :=
  { id := "td"
    headers := ["Message Field", "Tag", "VR", "Description of Field"]
    rows := [["Q", "(0000,0110)", "US", "Some field"]] }

/-- A small merged frame with request, response and cancel columns, one
mandatory parameter per role, and a sentinel row. -/
def exMergedSm : Merged :=
  { ovCols := ["Req/Ind", "Rsp/Conf", "CnclReq/CnclInd"]
    tagCols := ["Tag", "VR", "Description of Field"]
    rows :=
      [⟨"Message ID", ["M", "-", "-"], [some "(0000,0110)", some "US", some "Message identifier"]⟩,
       ⟨"Message ID Being Responded To", ["-", "M", "M"],
         [some "(0000,0120)", some "US", some "Request identifier"]⟩,
       ⟨"Data Set", ["M", "U", "-"], [some "(no tag)", some "-", some "Data set presence"]⟩] }

/-- A merged frame whose only row is a `Priority` parameter whose
requirement level is the not-applicable marker. -/
def exMergedPriorityDash : Merged :=
  { ovCols := ["Req/Ind"]
    tagCols := ["Tag", "VR", "Description of Field"]
    rows := [⟨"Priority", ["-"], [some "(0000,0700)", some "US", some "Priority of the operation"]⟩] }

/-- A merged frame with no sentinel parameter at all. -/
def exMergedNoSentinel : Merged :=
  { ovCols := ["Req/Ind"]
    tagCols := ["Tag", "VR", "Description of Field"]
    rows := [⟨"Message ID", ["M"], [some "(0000,0110)", some "US", some "Message identifier"]⟩] }

/-- Tables for the first configured message group carrying a
value-representation code (`OB`) that has no entry in `VR_MAP`. -/
def exBadVrTables : List HtmlTable :=
  [{ id := "table_9.1-1"
     headers := ["Parameter", "Req/Ind"]
     rows := [["Weird Thing", "M"]] },
   { id := "table_9.3-1"
     headers := ["Message Field", "Tag", "VR", "Description of Field"]
     rows := [["Weird Thing", "(0000,0001)", "OB", "Strange field"]] },
   { id := "table_9.3-2"
     headers := ["Message Field", "Tag", "VR", "Description of Field"]
     rows := [["Weird Thing", "(0000,0001)", "OB", "Strange field"]] }]

/-! ## C3: the fixed-default priority field -/

/--
C3, counterexample to the claim as stated: the claim says the generated
definition always contains the priority field with its fixed default
regardless of the declared requirement level, including level `-`.  On a
merged frame whose `Priority` row carries level `-` for the role, the
generated struct entry list is empty: the `need == "-"` check precedes the
`Priority` special case in `add_field_to_struct`, so the priority field is
suppressed, and `priorityFieldText` does not occur in the definition.
-/
theorem claim_c3_counterexample :
    (gen_role exMergedPriorityDash REQ_COLUMN "Rq" "C_Store").map (fun o => o.struct) =
      Except.ok [] := rfl

/--
C3 (amended): for every requirement level other than the literal `-`
(including a missing cell), the `Priority` parameter contributes exactly
the fixed-default struct entry, regardless of the value-representation
cell; the `-` level suppresses the priority field like any other
parameter's field.
-/
theorem claim_c3 (struct : List String) (need vr : Option String) (d row : String)
    (h : need ≠ some "-") :
    add_field_to_struct struct "Priority" need vr d row =
      Except.ok (struct ++ [priorityFieldText]) := by
  unfold add_field_to_struct
  rw [if_neg (by decide), if_neg h, if_pos rfl]

/-- C3 witness: the amended theorem at level `M`. -/
theorem claim_c3_witness :
    add_field_to_struct [] "Priority" (some "M") none "d" "r" =
      Except.ok [priorityFieldText] :=
  claim_c3 [] (some "M") none "d" "r" (by decide)

/-! ## C4: requirement-level mapping for ordinary parameters -/

/--
C4, counterexample to the claim as stated: the claim says any
requirement level other than `-` and not beginning with `M` produces an
`Option`-wrapped field.  An empty level cell is such a level, but
`need[0]` raises an `IndexError` instead of producing a field, so the run
aborts rather than generating an optional field.
-/
theorem claim_c4_counterexample :
    add_field_to_struct [] "Foo" (some "") (some "US") "d" "r" =
      Except.error "IndexError: string index out of range" := rfl

/--
C4 (amended): for a non-sentinel, non-priority parameter, level `-`
produces no field (for any value-representation cell); for a mapped
value representation and a non-empty level, a level beginning with `M`
produces the bare primitive type and any other non-empty level produces
the `Option`-wrapped type; an empty level aborts with an index error.
-/
theorem claim_c4 (struct : List String) (param : String) (d row : String)
    (hs : ¬(param = "Data Set" ∨ param = "Identifier")) (hp : param ≠ "Priority") :
    (∀ vr, add_field_to_struct struct param (some "-") vr d row = Except.ok struct) ∧
    (∀ vr value_type lvl c cs, vrLookup vr = some value_type → lvl.data = c :: cs →
      lvl ≠ "-" →
      (c = 'M' → add_field_to_struct struct param (some lvl) vr d row =
        Except.ok (struct ++ ["/// " ++ d, "pub " ++ fieldNameOf param ++ ": " ++ value_type])) ∧
      (c ≠ 'M' → add_field_to_struct struct param (some lvl) vr d row =
        Except.ok (struct ++ ["/// " ++ d,
          "pub " ++ fieldNameOf param ++ ": " ++ ("Option<" ++ value_type ++ ">")]))) := by
  constructor
  · intro vr
    unfold add_field_to_struct
    rw [if_neg hs, if_pos rfl]
  · intro vr value_type lvl c cs hvr hlvl hne
    have hneed : (some lvl : Option String) ≠ some "-" := by
      intro h
      exact hne (Option.some.inj h)
    constructor
    · intro hc
      unfold add_field_to_struct
      rw [if_neg hs, if_neg hneed, if_neg hp, hvr]
      simp [hlvl, hc]
    · intro hc
      unfold add_field_to_struct
      rw [if_neg hs, if_neg hneed, if_neg hp, hvr]
      simp [hlvl, hc]

/-- C4 witness: the amended theorem on a synthetic parameter, covering
the `-`, `M` and `U` level variants. -/
theorem claim_c4_witness :
    add_field_to_struct [] "Move Destination" (some "-") (some "AE") "dst" "r" =
      Except.ok [] ∧
    add_field_to_struct [] "Move Destination" (some "M") (some "AE") "dst" "r" =
      Except.ok ["/// dst", "pub move_destination: " ++ strSliceTy] ∧
    add_field_to_struct [] "Move Destination" (some "U") (some "AE") "dst" "r" =
      Except.ok ["/// dst",
        "pub " ++ fieldNameOf "Move Destination" ++ ": " ++ ("Option<" ++ strSliceTy ++ ">")] := by
  have h := claim_c4 [] "Move Destination" "dst" "r" (by decide) (by decide)
  refine ⟨h.1 (some "AE"), ?_, ?_⟩
  · exact (h.2 (some "AE") strSliceTy "M" 'M' [] rfl rfl (by decide)).1 rfl
  · exact (h.2 (some "AE") strSliceTy "U" 'U' [] rfl rfl (by decide)).2 (by decide)

/-! ## C10: the unknown-VR abort is scoped to field-producing records -/

/--
C10 (confirmed): the fatal VR check lives after the sentinel, `-` and
`Priority` early returns of `add_field_to_struct`, so for those records
the function succeeds whatever the value-representation cell holds; and
`add_field_to_dataset` raises independently of the value-representation
cell (it only interpolates it into the element text), so an unmapped code
never causes an abort for records that produce no ordinary field.
-/
theorem claim_c10 (struct : List String) (param : String) (need vr : Option String)
    (d row : String)
    (h : param = "Data Set" ∨ param = "Identifier" ∨ param = "Priority" ∨ need = some "-") :
    (∃ s, add_field_to_struct struct param need vr d row = Except.ok s) ∧
    (∀ impl markers vr2,
      (add_field_to_dataset impl markers param need vr).isOk =
        (add_field_to_dataset impl markers param need vr2).isOk) := by
  constructor
  · rcases h with h | h | h | h
    · exact ⟨struct, by unfold add_field_to_struct; rw [if_pos (Or.inl h)]⟩
    · exact ⟨struct, by unfold add_field_to_struct; rw [if_pos (Or.inr h)]⟩
    · by_cases hneed : need = some "-"
      · exact ⟨struct, by unfold add_field_to_struct; rw [if_neg (by simp [h]), if_pos hneed]⟩
      · exact ⟨struct ++ [priorityFieldText], by
          unfold add_field_to_struct
          rw [if_neg (by simp [h]), if_neg hneed, if_pos h]⟩
    · by_cases hs : param = "Data Set" ∨ param = "Identifier"
      · exact ⟨struct, by unfold add_field_to_struct; rw [if_pos hs]⟩
      · exact ⟨struct, by unfold add_field_to_struct; rw [if_neg hs, if_pos h]⟩
  · intro impl markers vr2
    unfold add_field_to_dataset
    by_cases hs : param = "Data Set" ∨ param = "Identifier"
    · rw [if_pos hs, if_pos hs]
    · rw [if_neg hs, if_neg hs]
      by_cases hneed : need = some "-"
      · rw [if_pos hneed, if_pos hneed]
      · rw [if_neg hneed, if_neg hneed]
        by_cases hf : fieldNameOf param = "priority" <;>
          simp [hf, Except.isOk, Except.toBool]

/-- C10 witness: records with an unmapped (or missing) value
representation that nevertheless generate nothing do not abort: the
sentinel, the `-` level and `Priority` each succeed with a NaN VR cell. -/
theorem claim_c10_witness :
    (∃ s, add_field_to_struct [] "Data Set" (some "M") none "d" "r" = Except.ok s) ∧
    (∃ s, add_field_to_struct [] "Identifier" (some "U") (some "OB") "d" "r" = Except.ok s) ∧
    (∃ s, add_field_to_struct [] "Priority" (some "M") (some "OB") "d" "r" = Except.ok s) ∧
    (∃ s, add_field_to_struct [] "Foo" (some "-") (some "OB") "d" "r" = Except.ok s) :=
  ⟨(claim_c10 [] "Data Set" (some "M") none "d" "r" (Or.inl rfl)).1,
   (claim_c10 [] "Identifier" (some "U") (some "OB") "d" "r" (Or.inr (Or.inl rfl))).1,
   (claim_c10 [] "Priority" (some "M") (some "OB") "d" "r" (Or.inr (Or.inr (Or.inl rfl)))).1,
   (claim_c10 [] "Foo" (some "-") (some "OB") "d" "r" (Or.inr (Or.inr (Or.inr rfl)))).1⟩

/-! ## C2: sentinel parameters and the payload marker -/

/--
C2, counterexample to the claim as stated: the claim says any
requirement level not starting with `M`, `U` or `C` (including `-`) tags
the role `DatasetForbiddenCommand` with the `0x0101` element.  An empty
level cell is such a level, but `need[0]` raises an `IndexError` instead,
so the run aborts and no marker is recorded.
-/
theorem claim_c2_counterexample :
    add_field_to_dataset [] [] "Data Set" (some "") none =
      Except.error "IndexError: string index out of range" := rfl

/--
C2 (amended): for a sentinel parameter (`Data Set` or `Identifier`) no
ordinary struct field is ever produced; a level starting with `M` appends
the `0x0001` payload element and the `DatasetRequiredCommand` tag; a
non-empty level starting with `U` or `C` appends the `0x0101` element and
both the `DatasetConditionalCommand` and `DatasetRequiredCommand` tags;
any other non-empty level (including `-`) appends the `0x0101` element
and the `DatasetForbiddenCommand` tag; an empty level cell aborts with an
index error.
-/
theorem claim_c2 (impl markers : List String) (param lvl : String) (vr : Option String)
    (hs : param = "Data Set" ∨ param = "Identifier") :
    (pyStartsWith lvl "M" = true →
      add_field_to_dataset impl markers param (some lvl) vr =
        Except.ok (impl ++ [deDataSet0001], markers ++ ["DatasetRequiredCommand"])) ∧
    (∀ c cs, lvl.data = c :: cs → pyStartsWith lvl "M" = false → (c = 'U' ∨ c = 'C') →
      add_field_to_dataset impl markers param (some lvl) vr =
        Except.ok (impl ++ [deDataSet0101],
          markers ++ ["DatasetConditionalCommand", "DatasetRequiredCommand"])) ∧
    (∀ c cs, lvl.data = c :: cs → pyStartsWith lvl "M" = false → ¬(c = 'U' ∨ c = 'C') →
      add_field_to_dataset impl markers param (some lvl) vr =
        Except.ok (impl ++ [deDataSet0101], markers ++ ["DatasetForbiddenCommand"])) ∧
    (∀ (struct : List String) (need : Option String) (d row : String),
      add_field_to_struct struct param need vr d row = Except.ok struct) := by
  refine ⟨?_, ?_, ?_, ?_⟩
  · intro hm
    unfold add_field_to_dataset
    rw [if_pos hs]
    simp [hm]
  · intro c cs hlvl hm hc
    unfold add_field_to_dataset
    rw [if_pos hs]
    simp [hm, hlvl, hc]
  · intro c cs hlvl hm hc
    unfold add_field_to_dataset
    rw [if_pos hs]
    simp [hm, hlvl, hc]
  · intro struct need d row
    unfold add_field_to_struct
    rw [if_pos hs]

/-- C2 witness: the amended theorem at levels `M`, `U` and `-` for the
two sentinel parameters. -/
theorem claim_c2_witness :
    add_field_to_dataset [] [] "Data Set" (some "M") none =
      Except.ok ([deDataSet0001], ["DatasetRequiredCommand"]) ∧
    add_field_to_dataset [] [] "Identifier" (some "U") none =
      Except.ok ([deDataSet0101], ["DatasetConditionalCommand", "DatasetRequiredCommand"]) ∧
    add_field_to_dataset [] [] "Data Set" (some "-") none =
      Except.ok ([deDataSet0101], ["DatasetForbiddenCommand"]) ∧
    add_field_to_struct ["x"] "Data Set" (some "M") none "d" "r" = Except.ok ["x"] := by
  refine ⟨?_, ?_, ?_, ?_⟩
  · exact (claim_c2 [] [] "Data Set" "M" none (Or.inl rfl)).1 rfl
  · exact (claim_c2 [] [] "Identifier" "U" none (Or.inr rfl)).2.1 'U' [] rfl rfl (Or.inl rfl)
  · exact (claim_c2 [] [] "Data Set" "-" none (Or.inl rfl)).2.2.1 '-' [] rfl rfl (by decide)
  · exact (claim_c2 [] [] "Data Set" "M" none (Or.inl rfl)).2.2.2 ["x"] (some "M") "d" "r"

/-! ## C5: unmapped value representations abort with no artifact -/

/--
C5 (confirmed): whenever a record would generate an ordinary field (it is
not a sentinel, not `Priority`, its level is not `-`) and its
value-representation cell has no entry in `VR_MAP`, `add_field_to_struct`
raises the fatal error, whose text contains the offending code; any error
raised inside `gen` propagates so that `main_output` produces no artifact;
and concretely, running the whole compilation on tables carrying the
unmapped code `OB` aborts with exactly that error and writes nothing.
-/
theorem claim_c5 :
    (∀ (struct : List String) (param : String) (need vr : Option String) (d row : String),
      ¬(param = "Data Set" ∨ param = "Identifier") → need ≠ some "-" → param ≠ "Priority" →
      vrLookup vr = none →
      add_field_to_struct struct param need vr d row = Except.error (vrErrorMsg vr row) ∧
      containsSub (vrErrorMsg vr row).data (renderCell vr).data = true) ∧
    (∀ (table_list : List HtmlTable) (e : String),
      gen table_list = Except.error e → main_output table_list = Except.error e) ∧
    main_output exBadVrTables = Except.error "No type found for VR OB: row Weird Thing" := by
  refine ⟨?_, ?_, rfl⟩
  · intro struct param need vr d row hs hneed hp hvr
    constructor
    · unfold add_field_to_struct
      rw [if_neg hs, if_neg hneed, if_neg hp, hvr]
    · unfold vrErrorMsg
      rw [string_data_append, string_data_append, string_data_append,
        List.append_assoc, List.append_assoc]
      exact containsSub_append_left _
        (containsSub_of_leading (isPrefixOf_append_self _ _))
  · intro table_list e h
    unfold main_output
    rw [h]
    rfl

/-- C5 witness: the fatal branch at the concrete unmapped code `OB`. -/
theorem claim_c5_witness :
    add_field_to_struct [] "Foo" (some "M") (some "OB") "d" "rr" =
      Except.error "No type found for VR OB: row rr" ∧
    containsSub "No type found for VR OB: row rr".data "OB".data = true := by
  have h := claim_c5.1 [] "Foo" (some "M") (some "OB") "d" "rr"
    (by decide) (by decide) (by decide) rfl
  exact ⟨h.1, h.2⟩

/-! ## C6: the row-quality policy of the table normalizer -/

/-- The column labels a table normalizes under (the emphasized header
texts, or the first data row when there are none). -/
def tableHeaders (t : HtmlTable) : List String :=
  if t.headers.isEmpty then t.rows.headD [] else t.headers

/-- The data rows a table normalizes (all rows, or all but the header
row). -/
def tableData (t : HtmlTable) : List (List String) :=
  if t.headers.isEmpty then t.rows.tail else t.rows

theorem headerSplit_ok {t : HtmlTable} {hd : List String × List (List String)}
    (h : headerSplit t = Except.ok hd) :
    hd.1 = tableHeaders t ∧ hd.2 = tableData t := by
  unfold headerSplit at h
  unfold tableHeaders tableData
  by_cases hh : t.headers.isEmpty
  · simp only [hh, if_true] at h ⊢
    cases hr : t.rows with
    | nil => rw [hr] at h; exact absurd h (by simp)
    | cons a rest =>
      rw [hr] at h
      cases h
      simp
  · simp only [hh, if_false] at h ⊢
    cases h
    exact ⟨rfl, rfl⟩

theorem build_df_ok {hdrs : List String} {data : List (List String)} {df : Df}
    (h : build_df hdrs data = Except.ok df) :
    hdrs.length ≠ 0 ∧ df.rows = data.filterMap (keepRow hdrs.length) := by
  unfold build_df at h
  split at h
  · exact absurd h (by simp)
  · split at h
    · exact absurd h (by simp)
    · cases h
      exact ⟨by assumption, rfl⟩

theorem keepRow_mem {n : Nat} {data : List (List String)} {p : String}
    {attrs : List String} (h : (p, attrs) ∈ data.filterMap (keepRow n)) :
    (p :: attrs) ∈ data ∧ attrs.length + 1 = n := by
  rcases List.mem_filterMap.1 h with ⟨r, hr, hkeep⟩
  cases r with
  | nil => exact absurd hkeep (by simp [keepRow])
  | cons q as =>
    rw [keepRow] at hkeep
    split at hkeep
    · cases hkeep
      refine ⟨hr, ?_⟩
      simpa using (by assumption : (p :: attrs).length = n)
    · exact absurd hkeep (by simp)

theorem keepRow_complete {n : Nat} {data : List (List String)} {r : List String}
    (hr : r ∈ data) (hl : r.length = n) (hn : n ≠ 0) :
    ∃ p attrs, r = p :: attrs ∧ (p, attrs) ∈ data.filterMap (keepRow n) := by
  cases r with
  | nil => exact absurd (hl.symm) hn
  | cons p attrs =>
    refine ⟨p, attrs, rfl, List.mem_filterMap.2 ⟨p :: attrs, hr, ?_⟩⟩
    rw [keepRow, if_pos hl]

/--
C6, counterexample to the claim as stated: the claim says a row
containing any missing **or blank** cell is excluded from the record set.
`dropna()` only removes missing (NaN) cells; a blank cell is an ordinary
empty string, so the row `["Blank", ""]` of `exTableRows` survives
normalization (while the empty row and the one-cell row are dropped),
contradicting the blank half of the claim.
-/
theorem claim_c6_counterexample :
    df_for_table exTableRows =
      Except.ok { cols := ["Req/Ind"], rows := [("P", ["M"]), ("Blank", [""])] } := rfl

/--
C6 (amended): normalization silently keeps exactly the complete rows: a
surviving record comes from a data row carrying all of the table's
columns, and every complete data row (blank cells included) survives in
the record set; rows missing cells are excluded without any error being
raised.
-/
theorem claim_c6 (t : HtmlTable) (df : Df) (hok : df_for_table t = Except.ok df) :
    (∀ p attrs, (p, attrs) ∈ df.rows →
      (p :: attrs) ∈ tableData t ∧ attrs.length + 1 = (tableHeaders t).length) ∧
    (∀ r ∈ tableData t, r.length = (tableHeaders t).length →
      ∃ p attrs, r = p :: attrs ∧ (p, attrs) ∈ df.rows) := by
  unfold df_for_table at hok
  cases hsp : headerSplit t with
  | error e =>
    rw [hsp] at hok
    exact absurd hok (by simp [Bind.bind, Except.bind])
  | ok hd =>
    rw [hsp] at hok
    replace hok : build_df hd.1 hd.2 = Except.ok df := hok
    obtain ⟨hn, hrows⟩ := build_df_ok hok
    obtain ⟨h1, h2⟩ := headerSplit_ok hsp
    rw [h1] at hn
    rw [h1, h2] at hrows
    constructor
    · intro p attrs hmem
      rw [hrows] at hmem
      exact keepRow_mem hmem
    · intro r hr hl
      obtain ⟨p, attrs, hpa, hm⟩ := keepRow_complete hr hl hn
      exact ⟨p, attrs, hpa, by rw [hrows]; exact hm⟩

/-- C6 witness: the amended theorem at the concrete table, locating the
complete blank-celled row in the record set. -/
theorem claim_c6_witness :
    ∃ p attrs, ["Blank", ""] = p :: attrs ∧
      (p, attrs) ∈ ({ cols := ["Req/Ind"], rows := [("P", ["M"]), ("Blank", [""])] } : Df).rows :=
  (claim_c6 exTableRows _ rfl).2 ["Blank", ""] (by decide) (by decide)

/-! ## C1: the shape of the merged frame -/

theorem dedup_go_mem {f : α → β} [DecidableEq β] {seen : List β} {l : List α} {x : α}
    (h : x ∈ dedupByKey.go f seen l) : x ∈ l := by
  induction l generalizing seen with
  | nil => simp [dedupByKey.go] at h
  | cons a as ih =>
    rw [dedupByKey.go] at h
    split at h
    · exact List.mem_cons_of_mem a (ih h)
    · rcases List.mem_cons.1 h with h | h
      · exact h ▸ List.mem_cons_self a as
      · exact List.mem_cons_of_mem a (ih h)

theorem dedup_go_key_not_seen {f : α → β} [DecidableEq β] {seen : List β} {l : List α}
    {x : α} (h : x ∈ dedupByKey.go f seen l) : f x ∉ seen := by
  induction l generalizing seen with
  | nil => simp [dedupByKey.go] at h
  | cons a as ih =>
    rw [dedupByKey.go] at h
    split at h
    · exact ih h
    · rcases List.mem_cons.1 h with h | h
      · subst h; assumption
      · exact fun hm => ih h (List.mem_cons_of_mem _ hm)

theorem dedup_go_pairwise (f : α → β) [DecidableEq β] (seen : List β) (l : List α) :
    List.Pairwise (fun a b => f a ≠ f b) (dedupByKey.go f seen l) := by
  induction l generalizing seen with
  | nil => exact List.Pairwise.nil
  | cons a as ih =>
    rw [dedupByKey.go]
    split
    · exact ih seen
    · refine List.Pairwise.cons (fun y hy => ?_) (ih (f a :: seen))
      have := dedup_go_key_not_seen hy
      exact fun hfa => this (hfa ▸ List.mem_cons_self _ _)

theorem dedup_go_exists {f : α → β} [DecidableEq β] {l : List α} {x : α}
    (hx : x ∈ l) : ∀ seen, f x ∉ seen → ∃ y ∈ dedupByKey.go f seen l, f y = f x := by
  induction l with
  | nil => cases hx
  | cons a as ih =>
    intro seen hseen
    rw [dedupByKey.go]
    rcases List.mem_cons.1 hx with h | h
    · subst h
      rw [if_neg hseen]
      exact ⟨x, List.mem_cons_self _ _, rfl⟩
    · split
      · exact ih h seen hseen
      · by_cases hfa : f x = f a
        · exact ⟨a, List.mem_cons_self _ _, hfa.symm⟩
        · obtain ⟨y, hy, hfy⟩ := ih h (f a :: seen)
            (by simp [hfa, hseen])
          exact ⟨y, List.mem_cons_of_mem _ hy, hfy⟩

theorem mem_foldr_append {f : α → List β} {l : List α} {x : β} :
    x ∈ l.foldr (fun a acc => f a ++ acc) [] ↔ ∃ a ∈ l, x ∈ f a := by
  induction l with
  | nil => simp
  | cons a as ih => simp [ih]

theorem joinRow_shape {td : Df} {pr : String × List String} {r : MergedRow}
    (h : r ∈ joinRow td pr) :
    r.param = pr.1 ∧ r.ovVals = pr.2 ∧
      ((∃ tv, (r.param, tv) ∈ td.rows ∧ r.tagVals = tv.map some) ∨
       ((∀ tv, (r.param, tv) ∉ td.rows) ∧ r.tagVals = td.cols.map (fun _ => none))) := by
  unfold joinRow at h
  split at h
  · next hf =>
    rcases List.mem_singleton.1 h with rfl
    refine ⟨rfl, rfl, Or.inr ⟨fun tv hmem => ?_, rfl⟩⟩
    have hin : (pr.1, tv) ∈ td.rows.filter (fun tr => tr.1 = pr.1) :=
      List.mem_filter.2 ⟨hmem, by simp⟩
    rw [List.isEmpty_iff.1 hf] at hin
    cases hin
  · rcases List.mem_map.1 h with ⟨tr, htr, rfl⟩
    have hmem := List.mem_filter.1 htr
    refine ⟨rfl, rfl, Or.inl ⟨tr.2, ?_, rfl⟩⟩
    have hkey : tr.1 = pr.1 := by simpa using hmem.2
    simpa [← hkey] using hmem.1

theorem joinRow_ne_nil (td : Df) (pr : String × List String) : joinRow td pr ≠ [] := by
  unfold joinRow
  split
  · simp
  · next hf =>
    intro h
    rw [List.map_eq_nil_iff] at h
    exact hf (h ▸ List.isEmpty_nil)

theorem join_dfs_ok {overview tag_def : Df} {m : Merged}
    (h : join_dfs overview tag_def = Except.ok m) :
    m.ovCols = overview.cols ∧ m.tagCols = tag_def.cols ∧
      m.rows = dedupByKey (fun r => r.param)
        (overview.rows.foldr (fun pr acc => joinRow tag_def pr ++ acc) []) := by
  unfold join_dfs at h
  split at h
  · cases h; exact ⟨rfl, rfl, rfl⟩
  · cases h

/--
C1, counterexample to the claim as stated: the claim says every
parameter in the merged result has a matching tag definition (value
representation and description present) and that an overview parameter
with no tag-definition match is dropped.  Merging an overview whose
parameters `P` and `Blank` have no match in the tag-definition table
keeps both parameters, each with every tag-definition value missing:
pandas `join` defaults to a left join, not the inner join the claim
describes.
-/
theorem claim_c1_counterexample :
    (get_merged_df [exTableRows, exTableTags] "ov" ["td"]).map
      (fun m => m.rows.map (fun r => (r.param, r.tagVals))) =
      Except.ok [("P", [none, none, none]), ("Blank", [none, none, none])] := rfl

/--
C1 (amended): the merge left-joins the overview onto the deduplicated
tag definitions: no parameter key appears twice in the merged result
(first occurrence wins); every merged row's parameter comes from the
overview record set, and every overview parameter appears in the merged
result; a merged row either carries the values of some matching
tag-definition record (value representation and description present), or
— when no tag-definition record matches its key — stays in the result
with every tag-definition value missing instead of being dropped.
-/
theorem claim_c1 (table_list : List HtmlTable) (overview_id : String)
    (tag_def_ids : List String) (ov td : Df) (m : Merged)
    (hov : load_df table_list overview_id = Except.ok ov)
    (htd : load_tag_def table_list tag_def_ids = Except.ok td)
    (hm : get_merged_df table_list overview_id tag_def_ids = Except.ok m) :
    List.Pairwise (fun a b => a.param ≠ b.param) m.rows ∧
    (∀ r ∈ m.rows, ∃ vs, (r.param, vs) ∈ ov.rows) ∧
    (∀ pr ∈ ov.rows, ∃ r ∈ m.rows, r.param = pr.1) ∧
    (∀ r ∈ m.rows,
      (∃ tv, (r.param, tv) ∈ td.rows ∧ r.tagVals = tv.map some) ∨
      ((∀ tv, (r.param, tv) ∉ td.rows) ∧ r.tagVals = td.cols.map (fun _ => none))) := by
  unfold get_merged_df at hm
  rw [hov] at hm
  replace hm : (load_tag_def table_list tag_def_ids).bind (fun td => join_dfs ov td) =
    Except.ok m := hm
  rw [htd] at hm
  replace hm : join_dfs ov td = Except.ok m := hm
  obtain ⟨-, -, hrows⟩ := join_dfs_ok hm
  have hjoined : ∀ r ∈ m.rows, ∃ pr ∈ ov.rows, r ∈ joinRow td pr := by
    intro r hr
    rw [hrows] at hr
    exact mem_foldr_append.1 (dedup_go_mem hr)
  refine ⟨?_, ?_, ?_, ?_⟩
  · rw [hrows]
    exact dedup_go_pairwise _ _ _
  · intro r hr
    obtain ⟨pr, hpr, hjr⟩ := hjoined r hr
    obtain ⟨hp, hvs, -⟩ := joinRow_shape hjr
    exact ⟨pr.2, by rw [hp]; exact hpr⟩
  · intro pr hpr
    obtain ⟨r0, hr0⟩ : ∃ r0, r0 ∈ joinRow td pr := by
      cases hj : joinRow td pr with
      | nil => exact absurd hj (joinRow_ne_nil td pr)
      | cons a l => exact ⟨a, hj ▸ List.mem_cons_self a l⟩
    have hr0join : r0 ∈ ov.rows.foldr (fun pr acc => joinRow td pr ++ acc) [] :=
      mem_foldr_append.2 ⟨pr, hpr, hr0⟩
    obtain ⟨y, hy, hfy⟩ :=
      @dedup_go_exists _ _ (fun r => r.param) _ _ _ hr0join [] (by simp)
    refine ⟨y, by rw [hrows]; exact hy, ?_⟩
    rw [hfy, (joinRow_shape hr0).1]
  · intro r hr
    obtain ⟨pr, hpr, hjr⟩ := hjoined r hr
    exact (joinRow_shape hjr).2.2

/-- C1 witness: the amended theorem at the concrete unmatched-overview
tables, giving key uniqueness of the merged result. -/
theorem claim_c1_witness :
    List.Pairwise (fun a b => a.param ≠ b.param)
      ({ ovCols := ["Req/Ind"]
         tagCols := ["Tag", "VR", "Description of Field"]
         rows := [⟨"P", ["M"], [none, none, none]⟩,
                  ⟨"Blank", [""], [none, none, none]⟩] } : Merged).rows :=
  (claim_c1 [exTableRows, exTableTags] "ov" ["td"]
    { cols := ["Req/Ind"], rows := [("P", ["M"]), ("Blank", [""])] }
    { cols := ["Tag", "VR", "Description of Field"]
      rows := [("Q", ["(0000,0110)", "US", "Some field"])] }
    _ rfl rfl rfl).1

/-! ## C9: the command-field element opens every recipe -/

/--
C9 (confirmed): for every successfully generated role, the ordered
wire-element constructions of the serialization recipe are exactly the
hard-coded command-field element followed by the per-row elements, so
the `tags::COMMAND_FIELD` element is emitted first, before the
payload-presence element and before every parameter element.
-/
theorem claim_c9 (m : Merged) (cn sfx pre : String) (out : RoleOutput)
    (h : gen_role m cn sfx pre = Except.ok out) :
    out.recipe = commandFieldDe :: out.impl := by
  unfold gen_role at h
  cases hp : process_rows m cn m.rows [] [] [] with
  | error e => rw [hp] at h; cases h
  | ok t =>
    rcases t with ⟨s, i, mk⟩
    rw [hp] at h
    cases h
    rfl

/-- C9 witness: the theorem at a concrete role whose generation
succeeds. -/
theorem claim_c9_witness :
    (gen_role exMergedSm REQ_COLUMN "Rq" "C_Store").map
      (fun o => o.recipe = commandFieldDe :: o.impl) = Except.ok True := by
  cases hg : gen_role exMergedSm REQ_COLUMN "Rq" "C_Store" with
  | error e =>
    have hok : (gen_role exMergedSm REQ_COLUMN "Rq" "C_Store").isOk = true := rfl
    rw [hg] at hok
    simp [Except.isOk, Except.toBool] at hok
  | ok o =>
    have h := claim_c9 exMergedSm REQ_COLUMN "Rq" "C_Store" o hg
    simp [Except.map, h]

/-! ## C8: the default payload marker -/

theorem except_ok_bind {α β : Type} (a : α) (f : α → Except String β) :
    (Except.ok a : Except String α) >>= f = f a := rfl

theorem add_field_to_dataset_markers {impl markers : List String} {param : String}
    {need vr : Option String} {i2 mk2 : List String}
    (hs : ¬(param = "Data Set" ∨ param = "Identifier"))
    (h : add_field_to_dataset impl markers param need vr = Except.ok (i2, mk2)) :
    mk2 = markers := by
  unfold add_field_to_dataset at h
  rw [if_neg hs] at h
  split at h
  · cases h; rfl
  · split at h
    · cases h; rfl
    · cases h; rfl

theorem process_markers_of_no_sentinel (m : Merged) (cn : String) :
    ∀ (rows : List MergedRow) (struct impl markers s i mk : List String),
      (∀ r ∈ rows, ¬(sub_param r.param = "Data Set" ∨ sub_param r.param = "Identifier")) →
      process_rows m cn rows struct impl markers = Except.ok (s, i, mk) →
      mk = markers := by
  intro rows
  induction rows with
  | nil =>
    intro struct impl markers s i mk _ h
    cases h
    rfl
  | cons r rest ih =>
    intro struct impl markers s i mk hns h
    rw [process_rows] at h
    cases hg1 : rowGet m r cn with
    | none => simp only [hg1] at h; cases h
    | some need =>
      simp only [hg1] at h
      cases hg2 : rowGet m r VR_COLUMN with
      | none => simp only [hg2] at h; cases h
      | some vr =>
        simp only [hg2] at h
        cases hd : getDescription m r (sub_param r.param) with
        | error e => simp only [hd, Except.bind] at h; cases h
        | ok description =>
          simp only [hd, except_ok_bind] at h
          cases ha : add_field_to_dataset impl markers (sub_param r.param) need vr with
          | error e => simp only [ha, Except.bind] at h; cases h
          | ok t =>
            rcases t with ⟨i2, mk2⟩
            simp only [ha, except_ok_bind] at h
            cases hst : add_field_to_struct struct (sub_param r.param) need vr description
              (sub_param r.param) with
            | error e => simp only [hst, Except.bind] at h; cases h
            | ok struct2 =>
              simp only [hst, except_ok_bind] at h
              have hmk2 : mk2 = markers :=
                add_field_to_dataset_markers (hns r (List.mem_cons_self _ _)) ha
              have := ih struct2 i2 mk2 s i mk
                (fun x hx => hns x (List.mem_cons_of_mem _ hx)) h
              rw [this, hmk2]

/--
C8 (confirmed): every successfully generated role carries at least one
payload-marker tag, and when no row of the merged record set is a
sentinel parameter (`Data Set` or `Identifier`, after the sub-operations
renaming), the marker list is exactly the defaulted
`DatasetForbiddenCommand`.
-/
theorem claim_c8 (m : Merged) (cn sfx pre : String) (out : RoleOutput)
    (h : gen_role m cn sfx pre = Except.ok out) :
    out.markers ≠ [] ∧
    ((∀ r ∈ m.rows, ¬(sub_param r.param = "Data Set" ∨ sub_param r.param = "Identifier")) →
      out.markers = ["DatasetForbiddenCommand"]) := by
  unfold gen_role at h
  cases hp : process_rows m cn m.rows [] [] [] with
  | error e => rw [hp] at h; cases h
  | ok t =>
    rcases t with ⟨s, i, mk⟩
    rw [hp] at h
    cases h
    constructor
    · show (if mk.isEmpty = true then ["DatasetForbiddenCommand"] else mk) ≠ []
      by_cases hmk : mk.isEmpty
      · simp [hmk]
      · rw [if_neg hmk]
        intro hnil
        exact hmk (by simp [hnil])
    · intro hns
      have hmk : mk = [] := process_markers_of_no_sentinel m cn m.rows [] [] [] s i mk hns hp
      show (if mk.isEmpty = true then ["DatasetForbiddenCommand"] else mk) =
        ["DatasetForbiddenCommand"]
      simp [hmk]

/-- C8 witness: a role generated from a merged frame with no sentinel
parameter ends up tagged exactly `DatasetForbiddenCommand`. -/
theorem claim_c8_witness :
    (gen_role exMergedNoSentinel REQ_COLUMN "Rq" "C_Echo").map (fun o => o.markers) =
      Except.ok ["DatasetForbiddenCommand"] := by
  cases hg : gen_role exMergedNoSentinel REQ_COLUMN "Rq" "C_Echo" with
  | error e =>
    have hok : (gen_role exMergedNoSentinel REQ_COLUMN "Rq" "C_Echo").isOk = true := rfl
    rw [hg] at hok
    simp [Except.isOk, Except.toBool] at hok
  | ok o =>
    have h := claim_c8 exMergedNoSentinel REQ_COLUMN "Rq" "C_Echo" o hg
    simp [Except.map]
    exact h.2 (by decide)

/-! ## C7: the collapsed cancel role -/

/-- Scanner certifying that every apostrophe of a character list lies
inside an occurrence of `pat` (the occurrences that
`pyReplaceData _ _ pat []` erases): it consumes `pat` whenever `pat` is a
prefix, rejects any other apostrophe, and mirrors the branch structure of
`pyReplaceData`. -/
def scanApos (pat : List Char) : Nat → List Char → Bool
  | 0, s => s.isEmpty
  | fuel + 1, s =>
    match s with
    | [] => true
    | c :: rest =>
      if pat ≠ [] ∧ pat.isPrefixOf (c :: rest) then
        scanApos pat fuel ((c :: rest).drop pat.length)
      else if c = aposC then false
      else scanApos pat fuel rest

theorem replace_apos_free (pat : List Char) :
    ∀ (fuel : Nat) (s : List Char), s.length ≤ fuel → scanApos pat fuel s = true →
      aposC ∉ pyReplaceData fuel s pat [] := by
  intro fuel
  induction fuel with
  | zero =>
    intro s hlen hscan
    have hs : s = [] := List.eq_nil_of_length_eq_zero (Nat.le_zero.1 hlen)
    subst hs
    simp [pyReplaceData]
  | succ n ih =>
    intro s hlen hscan
    cases s with
    | nil => simp [pyReplaceData]
    | cons c rest =>
      rw [scanApos] at hscan
      rw [pyReplaceData]
      by_cases hpre : pat ≠ [] ∧ pat.isPrefixOf (c :: rest)
      · rw [if_pos hpre] at hscan ⊢
        have hplen : 1 ≤ pat.length := by
          cases hp : pat with
          | nil => exact absurd hp hpre.1
          | cons a l => simp
        have hdrop : ((c :: rest).drop pat.length).length ≤ n := by
          rw [List.length_drop]
          simp only [List.length_cons] at hlen ⊢
          omega
        simpa using ih ((c :: rest).drop pat.length) hdrop hscan
      · rw [if_neg hpre] at hscan ⊢
        by_cases hapos : c = aposC
        · rw [if_pos hapos] at hscan
          cases hscan
        · rw [if_neg hapos] at hscan
          have hrest := ih rest (by simpa using Nat.le_of_succ_le_succ hlen) hscan
          intro hmem
          rcases List.mem_cons.1 hmem with hmem | hmem
          · exact hapos hmem.symm
          · exact hrest hmem

theorem mem_of_containsSub {t p : List Char} {c : Char} (hc : c ∈ p)
    (h : containsSub t p = true) : c ∈ t := by
  induction t with
  | nil =>
    cases p with
    | nil => cases hc
    | cons a l => simp [containsSub] at h
  | cons a rest ih =>
    rw [containsSub, Bool.or_eq_true] at h
    rcases h with h1 | h2
    · obtain ⟨tail, htail⟩ := List.isPrefixOf_iff_prefix.1 h1
      rw [← htail]
      exact List.mem_append_left _ hc
    · exact List.mem_cons_of_mem _ (ih h2)

/--
C7 (confirmed): for every merged frame whose cancel role generates, the
synthesized role uses the single shared cancel-request command name
`C_CANCEL_RQ` (not the group-specific `{PREFIX}_{SUFFIX}` name); its
emitted text is the assembled text with every lifetime token `<'a>`
erased, and whenever the assembled text's apostrophes all lie inside
lifetime tokens (which the scanner certifies, and which holds for the
generated texts) the emitted cancel text contains no lifetime
parameterization at all — while, concretely, the request role of the
same group keeps the `<'a>` parameterization.
-/
theorem claim_c7 :
    (∀ (m : Merged) (pre : String) (out : RoleOutput),
      gen_role m CANCEL_COLUMN "Cncl" pre = Except.ok out →
      out.command_field_name = "C_CANCEL_RQ" ∧
      out.text = pyReplace out.raw_text lifetimeTok "" ∧
      (scanApos lifetimeTok.data out.raw_text.data.length out.raw_text.data = true →
        containsSub out.text.data lifetimeTok.data = false)) ∧
    (gen_role exMergedSm REQ_COLUMN "Rq" "C_Find").map
      (fun o => containsSub o.text.data lifetimeTok.data) = Except.ok true := by
  constructor
  · intro m pre out h
    unfold gen_role at h
    cases hp : process_rows m CANCEL_COLUMN m.rows [] [] [] with
    | error e => rw [hp] at h; cases h
    | ok t =>
      rcases t with ⟨s, i, mk⟩
      rw [hp] at h
      cases h
      refine ⟨rfl, rfl, fun hscan => ?_⟩
      show containsSub
        (pyReplaceData _ _ lifetimeTok.data "".data) lifetimeTok.data = false
      cases hcon : containsSub (pyReplaceData _ _ lifetimeTok.data "".data) lifetimeTok.data with
      | false => rfl
      | true =>
        exact absurd (mem_of_containsSub (by decide) hcon)
          (replace_apos_free lifetimeTok.data _ _ le_rfl hscan)
  · rfl

/-- C7 witness: the cancel role of a concrete group collapses to the
shared cancel command name and its emitted text has no lifetime token. -/
theorem claim_c7_witness :
    (gen_role exMergedSm CANCEL_COLUMN "Cncl" "C_Find").map
      (fun o => (o.command_field_name, containsSub o.text.data lifetimeTok.data)) =
      Except.ok ("C_CANCEL_RQ", false) := by
  cases hg : gen_role exMergedSm CANCEL_COLUMN "Cncl" "C_Find" with
  | error e =>
    have hok : (gen_role exMergedSm CANCEL_COLUMN "Cncl" "C_Find").isOk = true := rfl
    rw [hg] at hok
    simp [Except.isOk, Except.toBool] at hok
  | ok o =>
    obtain ⟨h1, -, h3⟩ := claim_c7.1 exMergedSm "C_Find" o hg
    have hscan : scanApos lifetimeTok.data o.raw_text.data.length o.raw_text.data = true := by
      have hmap : (gen_role exMergedSm CANCEL_COLUMN "Cncl" "C_Find").map
          (fun x => scanApos lifetimeTok.data x.raw_text.data.length x.raw_text.data) =
          Except.ok true := rfl
      rw [hg] at hmap
      simpa [Except.map] using hmap
    simp [Except.map, h1, h3 hscan]

end DicomGen
